import Mathlib

/-!
Verification of the line quality-check pipeline of `qa_line/views.py`
(class `CheckQualityLine`).

Embedding conventions:
* Python floats are modelled by `ℚ`; `round(x, 1)` becomes `round1`.
* Nullable pandas cells are modelled by `Option` (a `none` cell compares
  unequal to every concrete value, as NaN does under pandas `==`).
* The logger is modelled as a pure list of `LogRec` values returned by each
  check, in emission order.
* Python code that can raise (indexing `[0]`/`[-1]`/`.values[0]` on empty
  selections, `.coords` of a multi-part geometry, `re.search(...).group()`
  with no match, use of an unbound loop variable) is modelled by an
  `Option` result, `none` standing for the raised exception.
* Shapely predicates that the source only consumes (`is_empty`, `is_valid`,
  `crosses`, the `op='contains'` join predicate) are modelled as data fields
  of the layer records, respectively as `Bool`-valued parameters.
-/

namespace CQline

/-- Python `str.split(c)` for a one-character separator, on the character
list of the string. -/
def splitCharList (c : Char) : List Char → List (List Char)
  | [] => [[]]
  | a :: rest =>
    let r := splitCharList c rest
    if a = c then [] :: r
    else (a :: r.headD []) :: r.tail

/-- Python `s.split(c)` for a one-character separator. -/
def pySplit (s : String) (c : Char) : List String :=
  (splitCharList c s.data).map String.mk

/-- Python `s.split(c)[-1]`; `split` never returns an empty list. -/
def splitLast (s : String) (c : Char) : String :=
  (pySplit s c).getLastD ""

/-- Python dict insertion: overwrite the value when the key is present,
otherwise append the pair (dicts preserve insertion order). -/
def dictInsert {α : Type} (d : List (String × α)) (k : String) (v : α) :
    List (String × α) :=
  if d.any (fun p => p.1 == k) then
    d.map (fun p => if p.1 == k then (k, v) else p)
  else d ++ [(k, v)]

/-- Python `dict.values()`. -/
def dictValues {α : Type} (d : List (String × α)) : List α :=
  d.map Prod.snd

/-- Python truthiness of `get_founded_points_dict`'s result: `False` and the
empty dict are falsy, a non-empty dict is truthy. -/
def truthyDict {α : Type} : Option (List α) → Bool
  | none => false
  | some l => !l.isEmpty

/-- Python truthiness of a nullable string cell: a missing value (`None`)
and the empty string are falsy. -/
def truthyOptStr : Option String → Bool
  | none => false
  | some s => !s.isEmpty

/-- Python `f.endswith(pat)`. -/
def strEndsWith (s pat : String) : Bool :=
  decide (pat.data.length ≤ s.data.length) &&
    s.data.drop (s.data.length - pat.data.length) == pat.data

/-- Python `round(x, 1)`: the coordinate rounded to one decimal.  (Ties at
half a tenth do not occur in the data considered here.) -/
def round1 (x : ℚ) : ℚ :=
  ((round (10 * x) : ℤ) : ℚ) / 10

/-- One record written to the QA log: a level (`INFO`/`ERROR`) and a
message. -/
structure LogRec where
  level : String
  msg : String
deriving DecidableEq

/-- A `logger.info` record. -/
def infoRec (m : String) : LogRec := ⟨"INFO", m⟩

/-- A `logger.error` record. -/
def errorRec (m : String) : LogRec := ⟨"ERROR", m⟩

/-- The log line written for a record, with the format
`"%(levelname)s - %(message)s"`. -/
def renderLog (r : LogRec) : String :=
  r.level ++ " - " ++ r.msg

/-- One entry of the JSON report assembled by `add_response_data`. -/
structure ReportItem where
  level : String
  report_message : String
deriving DecidableEq

/-- Parsing of one log line in `add_response_data`:
`report.split('-')[0]` and `report.split('-')[1]`; fewer than two parts
would raise `IndexError`. -/
def parseReportLine (line : String) : Option ReportItem :=
  match pySplit line '-' with
  | a :: b :: _ => some ⟨a, b⟩
  | _ => none

/-- `add_response_data`: re-read the rendered log lines and split each on
`'-'` to build the report list. -/
def add_response_data (log : List LogRec) : Option (List ReportItem) :=
  (log.map renderLog).mapM parseReportLine

/-- The data rendered to the caller: `response_data['result']`,
`response_data['message']` and, on the non-gated path only,
`response_data['reports']`. -/
structure Response where
  result : String
  message : String
  reports : Option (List ReportItem)
deriving DecidableEq

/-- Geometry of a line feature: a single line string carries its coordinate
sequence; `.coords` of a multi-part geometry raises. -/
inductive TramGeom where
  | lineString (coords : List (ℚ × ℚ))
  | multiLineString (parts : List (List (ℚ × ℚ)))
deriving DecidableEq

/-- Shapely `geom_type`. -/
def TramGeom.geomType : TramGeom → String
  | .lineString _ => "LineString"
  | .multiLineString _ => "MultiLineString"

/-- Shapely `.coords`: available for a `LineString`, raises for a
`MultiLineString`. -/
def TramGeom.coordsOpt : TramGeom → Option (List (ℚ × ℚ))
  | .lineString cs => some cs
  | .multiLineString _ => none

/-- Stand-in for the interpolation of the parts object of a multi-part
geometry into the multi-part error message (the source interpolates the
object itself; its printed form is abstracted here). -/
def partsRepr : TramGeom → String
  | .lineString _ => ""
  | .multiLineString ps => toString ps.length

/-- One feature of `Lin_TramPpta`. -/
structure Tram where
  ID : String
  ID_LINIA : Int
  ID_FITA1 : String
  ID_FITA2 : String
  geometry : TramGeom
  is_empty : Bool
  is_valid : Bool
deriving DecidableEq

/-- One feature of the point layer `Punt`. -/
structure Punt where
  ID_PUNT : String
  ETIQUETA : String
  FOTOS : Option String
  CONTACTE : Option String
  x : ℚ
  y : ℚ
  z : ℚ
  is_empty : Bool
  is_valid : Bool
deriving DecidableEq

/-- One record of the table `P_Proposta`. -/
structure PProposta where
  ID_PUNT : String
  PFF : Option Int
  ESFITA : Option Int
  ORDPF : Option Int
deriving DecidableEq

/-- One record of the table `PUNT_FIT`. -/
structure PuntFit where
  ID_PUNT : String
  ID_FITA : String
  TROBADA : Option String
  AUX : Option String
deriving DecidableEq

/-- One reference line of `tram_linia_mem`. -/
structure MemTram where
  id_linia : Int
  geometry : TramGeom
deriving DecidableEq

/-- One reference marker of `fita_mem`. -/
structure MemFita where
  id_linia : Int
deriving DecidableEq

/-- The loaded layers and tables of one run (the Layer Store), together
with the column list of `Lin_TramPpta` and the photo folder listing. -/
structure LineData where
  lin_tram_fields : List String
  lin_tram_ppta : List Tram
  punt : List Punt
  p_proposta : List PProposta
  punt_fit : List PuntFit
  tram_line_mem : List MemTram
  fita_mem : List MemFita
  photo_folder : List String

/-- `check_line_id_exists`: four-way classification of the submitted line
identifier against the two reference layers. -/
def check_line_id_exists (line_id : Int) (tram_mem : List MemTram)
    (fita_mem : List MemFita) : List LogRec :=
  let line_id_in_lin_tram := !(tram_mem.filter (fun t => t.id_linia == line_id)).isEmpty
  let line_id_in_fita_g := !(fita_mem.filter (fun f => f.id_linia == line_id)).isEmpty
  if line_id_in_fita_g && line_id_in_lin_tram then
    [errorRec "L'ID Linia introduït està en fita_mem i tram_linia_mem"]
  else if line_id_in_fita_g && !line_id_in_lin_tram then
    [errorRec "L'ID Linia introduït està en fita_mem però no en lin_tram_mem"]
  else if !line_id_in_fita_g && line_id_in_lin_tram then
    [errorRec "L'ID Linia introduït no està en fita_mem però sí en lin_tram_mem"]
  else
    [infoRec "L'ID Linia no està repetit a fita_mem i lin_tram_mem de SIDM3"]

/-- The fields `Lin_TramPpta` must have (`true_fields` in the source). -/
def true_fields : List String :=
  ["ID_LINIA", "ID", "DATA", "COMENTARI", "P1", "P2", "P3", "P4", "PF",
   "ID_FITA1", "ID_FITA2", "geometry"]

/-- `check_fields_lin_tram_ppta`: count the layer's fields that belong to
`true_fields` and pass iff the count equals the length of `true_fields`. -/
def check_fields_lin_tram_ppta (lin_tram_fields : List String) :
    Bool × List LogRec :=
  let field_match := (lin_tram_fields.filter (fun f => true_fields.contains f)).length
  if field_match = true_fields.length then
    (true, [infoRec "L'estructura de camps de Lin_TramPpta és correcte"])
  else
    (false, [errorRec "L'estructura de camps de Lin_TramPpta NO és correcte"])

/-- `check_fields_content_lint_tram_ppta`: flag segments of another line and
segments whose endpoint-marker reference is the sentinel `"1"`. -/
def check_fields_content_lint_tram_ppta (line_id : Int)
    (trams : List Tram) : List LogRec :=
  let tram_not_line_id := trams.filter (fun t => t.ID_LINIA != line_id)
  let e1 := if !tram_not_line_id.isEmpty then
      [errorRec "Existeixen trams de linia amb l'ID_LINIA d'una altra linia"]
    else []
  let tram_id_f1_bad := trams.filter (fun t => t.ID_FITA1 == "1")
  let tram_id_f2_bad := trams.filter (fun t => t.ID_FITA2 == "1")
  let e2 := if !tram_id_f1_bad.isEmpty || !tram_id_f2_bad.isEmpty then
      [errorRec "El camp ID_FITA d'algun dels trams de la linia no és vàlid"]
    else []
  let e3 := if tram_not_line_id.isEmpty && tram_id_f1_bad.isEmpty && tram_id_f2_bad.isEmpty then
      [infoRec "Els camps de Lin_TramPpta estan correctament emplenats"]
    else []
  e1 ++ e2 ++ e3

/-- `check_lin_tram_ppta_layer`: the gating schema check; on pass, the
non-gating content check also runs. -/
def check_lin_tram_ppta_layer (lin_tram_fields : List String)
    (line_id : Int) (trams : List Tram) : Bool × List LogRec :=
  let fr := check_fields_lin_tram_ppta lin_tram_fields
  if !fr.1 then (false, fr.2)
  else (true, fr.2 ++ check_fields_content_lint_tram_ppta line_id trams)

/-- `get_ppf_list`: identifiers of the records with `PFF == 1`. -/
def get_ppf_list (p_proposta : List PProposta) : List String :=
  ((p_proposta.filter (fun r => r.PFF == some 1)).map (fun r => r.ID_PUNT))

/-- `get_founded_points_dict`: dict `ID_FITA ↦ ID_PUNT` of the found
(`TROBADA == '1'`) records whose point is in the PPF list; the function
returns `False` (here `none`) when no record at all is found. -/
def get_founded_points_dict (punt_fit : List PuntFit)
    (ppf_list : List String) : Option (List (String × String)) :=
  let points_founded := punt_fit.filter (fun r => r.TROBADA == some "1")
  if !points_founded.isEmpty then
    some (points_founded.foldl
      (fun d r =>
        if ppf_list.contains r.ID_PUNT then dictInsert d r.ID_FITA r.ID_PUNT
        else d)
      [])
  else none

/-- `check_lin_tram_geometry`: empty features, "ring" features (the source
reuses the `is_empty` mask for this test) and multi-part features. -/
def check_lin_tram_geometry (trams : List Tram) : List LogRec :=
  let empty_features := trams.filter (fun t => t.is_empty)
  let e1 := empty_features.map (fun t =>
    errorRec ("      El tram " ++ t.ID ++ " està buit"))
  let ring_features := trams.filter (fun t => t.is_empty)
  let e2 := ring_features.map (fun t =>
    errorRec ("      El tram " ++ t.ID ++ " té un anell interior"))
  let multis := trams.filter (fun t => t.geometry.geomType == "MultiLineString")
  let e3 := multis.map (fun t =>
    errorRec ("      El tram " ++ t.ID ++ " és multi-part i té " ++
      partsRepr t.geometry ++ " parts"))
  let ok := if empty_features.isEmpty && ring_features.isEmpty && multis.isEmpty then
      [infoRec "      No s'ha detectat cap error de geometria a Lin_TramPpta"]
    else []
  e1 ++ e2 ++ e3 ++ ok

/-- `check_points_geometry`: empty features and invalid geometries of the
point layer. -/
def check_points_geometry (punts : List Punt) : List LogRec :=
  let empty_features := punts.filter (fun p => p.is_empty)
  let e1 := empty_features.map (fun p =>
    errorRec ("      El punt " ++ p.ID_PUNT ++ " està buit"))
  let invalid_features := punts.filter (fun p => !p.is_valid)
  let e2 := invalid_features.map (fun p =>
    errorRec ("      El punt " ++ p.ID_PUNT ++ " no té una geometria vàlida"))
  let ok := if empty_features.isEmpty && invalid_features.isEmpty then
      [infoRec "      No s'ha detectat cap error de geometria a la capa Punt"]
    else []
  e1 ++ e2 ++ ok

/-- `check_layers_geometry`: headers plus the two geometry checks. -/
def check_layers_geometry (trams : List Tram) (punts : List Punt) : List LogRec :=
  [infoRec "Comprovació de les geometries...", infoRec "Lin_Tram_Proposta :"] ++
    check_lin_tram_geometry trams ++
    [infoRec "Punt :"] ++ check_points_geometry punts

/-- The vertex-count entry of one segment in `info_vertexs_line`;
`.coords` of a multi-part geometry raises. -/
def vertexs_entry (t : Tram) : Option LogRec :=
  (t.geometry.coordsOpt).map (fun cs =>
    infoRec ("      Tram ID : " ++ t.ID ++ "  |  Nº vèrtex : " ++
      toString cs.length))

/-- `info_vertexs_line`: header plus the vertex count per segment. -/
def info_vertexs_line (trams : List Tram) : Option (List LogRec) :=
  (trams.mapM vertexs_entry).map
    (fun l => infoRec "Vèrtexs de la linia :" :: l)

/-- The error message of `check_points_decimals` for one point. -/
def decim_err_msg (f : Punt) : String :=
  "La fita " ++ splitLast f.ETIQUETA '-' ++ "  |  ID_PUNT : " ++
    splitLast f.ID_PUNT '-' ++ " no està correctament decimetritzada"

/-- The rounding condition of `check_points_decimals` for one point:
`dif_x > 0.01 or dif_y > 0.01`. -/
def decim_bad (f : Punt) : Bool :=
  decide (|f.x - round1 f.x| > 1/100) || decide (|f.y - round1 f.y| > 1/100)

/-- `check_points_decimals`: a PPF point is flagged when either coordinate
is farther than `0.01` from its value rounded to one decimal. -/
def check_points_decimals (punts : List Punt) (ppf_list : List String) :
    List LogRec :=
  let errs := (punts.filter (fun f =>
      ppf_list.contains f.ID_PUNT && decim_bad f)).map
    (fun f => errorRec (decim_err_msg f))
  errs ++ (if errs.isEmpty then
    [infoRec "Les fites estan correctament decimetritzades"] else [])

/-- `count_points`: counts by category in `P_Proposta`. -/
def count_points (p_proposta : List PProposta) : List LogRec :=
  let n_not_final := (p_proposta.filter (fun r => r.PFF == some 0)).length
  let n_proposta := (p_proposta.filter (fun r => r.PFF == some 1 && r.ESFITA == some 1)).length
  let n_aux := (p_proposta.filter (fun r => r.PFF == some 1 && r.ESFITA == some 0)).length
  [infoRec ("      Fites PPF reals: " ++ toString n_proposta),
   infoRec ("      Fites PPF auxiliars: " ++ toString n_aux),
   infoRec ("      Fites no finals: " ++ toString n_not_final)]

/-- The error message of `check_ordpf` for one record. -/
def ordpf_err_msg (r : PProposta) : String :=
  "      El camp ORDPF del punt " ++ splitLast r.ID_PUNT '-' ++
    " a la taula PUNT_FIT és nul."

/-- `check_ordpf`: one error per record whose `ORDPF` is null. -/
def check_ordpf (p_proposta : List PProposta) : Bool × List LogRec :=
  let points_ordpf_null := p_proposta.filter (fun r => r.ORDPF.isNone)
  if !points_ordpf_null.isEmpty then
    (false, points_ordpf_null.map (fun r => errorRec (ordpf_err_msg r)))
  else (true, [])

/-- The error message of `check_real_points` for one record. -/
def real_points_err_msg (r : PProposta) : String :=
  "      El punt amb ID PUNT : " ++ splitLast r.ID_PUNT '-' ++
    " està mal indicat a P_Proposta: sembla que es tracta d'una fita auxiliar indicada com a fita real"

/-- `check_real_points`: one error per record with `PFF == 1`, `ORDPF == 0`
and `ESFITA != 0` (an auxiliary point marked as a real marker). -/
def check_real_points (p_proposta : List PProposta) : Bool × List LogRec :=
  let bad := p_proposta.filter (fun r =>
    r.PFF == some 1 && r.ORDPF == some 0 && r.ESFITA != some 0)
  if !bad.isEmpty then
    (false, bad.map (fun r => errorRec (real_points_err_msg r)))
  else (true, [])

/-- `info_p_proposta`: header, counts, the two record checks, and a closing
info entry when both passed. -/
def info_p_proposta (p_proposta : List PProposta) : List LogRec :=
  [infoRec "Informació de les fites :"] ++ count_points p_proposta ++
    (check_ordpf p_proposta).2 ++ (check_real_points p_proposta).2 ++
    (if (check_ordpf p_proposta).1 && (check_real_points p_proposta).1 then
      [infoRec "Tots els registre de la taula P_Proposta són vàlids."]
    else [])

/-- `check_photo_exists`: one error per found PPF point that carries no
photo filename. -/
def check_photo_exists (punts : List Punt) (ppf_list : List String)
    (founded_points_dict : List (String × String)) : List LogRec :=
  let points_with_photo := punts.filter (fun p => p.FOTOS.isSome)
  let points_with_photo_list := points_with_photo.map (fun p => p.ID_PUNT)
  let ppf_with_photo_list := points_with_photo_list.filter
    (fun pid => ppf_list.contains pid)
  let founded_points_no_photo := founded_points_dict.filter
    (fun kv => !ppf_with_photo_list.contains kv.2)
  if founded_points_no_photo.isEmpty then
    [infoRec "Totes les fites trobades tenen fotografia."]
  else
    founded_points_no_photo.map (fun kv =>
      errorRec ("      La fita " ++ splitLast kv.1 '-' ++
        "  |  ID PUNT : " ++ splitLast kv.2 '-' ++
        " és trobada però no té cap fotografia indicada."))

/-- `check_photo_name`: one error per referenced photo filename that is not
among the `.jpg`/`.JPG` files of the photo folder. -/
def check_photo_name (photo_folder : List String) (punts : List Punt)
    (ppf_list : List String) : List LogRec :=
  let folder_photos_filenames := photo_folder.filter
    (fun f => strEndsWith f ".jpg" || strEndsWith f ".JPG")
  let founded_points_photos :=
    ((punts.filter (fun p => p.FOTOS.isSome && ppf_list.contains p.ID_PUNT)).map
      (fun p => p.FOTOS.getD ""))
  let errs := (founded_points_photos.filter
      (fun ph => !folder_photos_filenames.contains ph)).map
    (fun ph => errorRec ("La fotografia " ++ ph ++
      " no està a la carpeta de Fotografies."))
  errs ++ (if errs.isEmpty then
    [infoRec "Totes les fotografies informades a la capa Punt estan a la carpeta de Fotografies."]
  else [])

/-- `check_cota_fita`: one error per PPF point with a positive z coordinate
that is not among the found points. -/
def check_cota_fita (punts : List Punt) (ppf_list : List String)
    (founded_points_dict : List (String × String)) : List LogRec :=
  let ppf_z_dict := punts.foldl
    (fun d p =>
      if decide (p.z > 0) && ppf_list.contains p.ID_PUNT then
        dictInsert d p.ETIQUETA p.ID_PUNT
      else d)
    []
  let bad := ppf_z_dict.filter
    (fun kv => !(dictValues founded_points_dict).contains kv.2)
  let errs := bad.map (fun kv =>
    errorRec ("La F " ++ splitLast kv.1 '-' ++ "  |  ID PUNT : " ++
      splitLast kv.2 '-' ++ " té coordenada Z però no és fita trobada."))
  errs ++ (if errs.isEmpty then
    [infoRec "Totes les fites amb coordenada Z són trobades"] else [])

/-- `check_found_points`: the three found-marker checks, in order. -/
def check_found_points (punts : List Punt) (ppf_list : List String)
    (founded_points_dict : List (String × String))
    (photo_folder : List String) : List LogRec :=
  check_photo_exists punts ppf_list founded_points_dict ++
    check_photo_name photo_folder punts ppf_list ++
    check_cota_fita punts ppf_list founded_points_dict

/-- `int(re.search(r'\x5cd+', s).group())`: the first run of digits of the
label, as a number; no digit raises. -/
def firstDigitNum (s : String) : Option Nat :=
  let ds := (s.data.dropWhile (fun c => !c.isDigit)).takeWhile (fun c => c.isDigit)
  if ds.isEmpty then none
  else some (ds.foldl (fun n c => 10 * n + (c.toNat - 48)) 0)

/-- Stable ascending insertion by sorting key, matching the order produced
by sorting the point dataframe on the extracted label number. -/
def insertByKey (x : Punt × Nat) : List (Punt × Nat) → List (Punt × Nat)
  | [] => [x]
  | y :: ys => if x.2 ≤ y.2 then x :: y :: ys else y :: insertByKey x ys

/-- Sort the tagged points ascending by key, keeping the original order of
equal keys. -/
def sortByKey (l : List (Punt × Nat)) : List (Punt × Nat) :=
  l.foldr insertByKey []

/-- `check_3termes`: sort points by the number extracted from `ETIQUETA`,
keep the PPF ones, and require the first and last to have a truthy
`CONTACTE`; the label extraction and `iloc[0]`/`iloc[-1]` can raise. -/
def check_3termes (punts : List Punt) (ppf_list : List String) :
    Option (List LogRec) :=
  match punts.mapM (fun p => (firstDigitNum p.ETIQUETA).map (fun n => (p, n))) with
  | none => none
  | some tagged =>
    let sorted_points := sortByKey tagged
    let sorted_ppf := sorted_points.filter (fun pk => ppf_list.contains pk.1.ID_PUNT)
    match sorted_ppf.head?, sorted_ppf.getLast? with
    | some first_point, some last_point =>
      let e1 := if truthyOptStr first_point.1.CONTACTE && truthyOptStr last_point.1.CONTACTE then
          [infoRec "Les fites 3T tenen informat el camp CONTACTE."]
        else [errorRec "Hi ha fites 3T que no tenen informat el camp CONTACTE."]
      let n_informed := (punts.filter (fun p => p.CONTACTE.isSome)).length
      some (e1 ++ [infoRec ("Hi ha un total de " ++ toString n_informed ++
        " fites amb el camp CONTACTE informat.")])
    | _, _ => none

/-- The body of the first loop of `check_relation_points_tables`, threading
the Python local variable `point_id` through the iterations. -/
def relation_step (points_id_list : List String)
    (st : List LogRec × Option String) (r : PProposta) :
    List LogRec × Option String :=
  let pid := r.ID_PUNT
  if !points_id_list.contains pid then
    (st.1 ++ [errorRec ("El registre amb ID PUNT : " ++ splitLast pid '-' ++
      " de la taula P_PROPOSTA no està a la capa Punt.")],
     some (splitLast pid '-'))
  else (st.1, some pid)

/-- The body of the second loop of `check_relation_points_tables`: the error
message interpolates `point_id_`, which was just reassigned from the stale
first-loop variable `point_id` (`last_pid` here); when the first loop never
ran, that variable is unbound and the access raises `NameError`. -/
def relation_fit_step (points_id_list : List String)
    (last_pid : Option String) (acc : Option (List LogRec)) (r : PuntFit) :
    Option (List LogRec) :=
  match acc with
  | none => none
  | some es =>
    if !points_id_list.contains r.ID_PUNT then
      match last_pid with
      | none => none
      | some pid =>
        some (es ++ [errorRec ("El registre amb ID PUNT : " ++
          splitLast pid '-' ++
          " de la taula PUNT_FIT no està a la capa Punt.")])
    else some es

/-- `check_relation_points_tables`: referential check of `P_Proposta` and
`PUNT_FIT` against the point layer. -/
def check_relation_points_tables (punts : List Punt)
    (p_proposta : List PProposta) (punt_fit : List PuntFit) :
    Option (List LogRec) :=
  let points_id_list := punts.map (fun p => p.ID_PUNT)
  let first_loop := p_proposta.foldl (relation_step points_id_list) ([], none)
  let part1 := [infoRec "Comprovant correspondència entre les taules i la capa Punt..."] ++
    first_loop.1 ++
    (if first_loop.1.isEmpty then
      [infoRec "      Correspondència OK entre els punts de P_PROPOSTA i Punt."]
    else [])
  match punt_fit.foldl (relation_fit_step points_id_list first_loop.2) (some []) with
  | none => none
  | some errs2 =>
    some (part1 ++ errs2 ++
      (if errs2.isEmpty then
        [infoRec "      Correspondència OK entre els punts de PUNT_FIT i Punt."]
      else []))

/-- `check_line_crosses_itself`: invalid (self-touching) segments, then each
segment crossing another segment of the same line with a different
geometry. -/
def check_line_crosses_itself (trams : List Tram)
    (crosses : TramGeom → TramGeom → Bool) : List LogRec :=
  let invalid_features := trams.filter (fun t => !t.is_valid)
  let e1 := invalid_features.map (fun t =>
    errorRec ("      El tram " ++ t.ID ++
      " de la línia s'intersecta o toca a sí mateix."))
  let e2 := trams.foldl
    (fun acc tram =>
      let line := trams.filter (fun t2 => t2.geometry != tram.geometry)
      acc ++ (line.filter (fun t2 => crosses tram.geometry t2.geometry)).map
        (fun t2 => errorRec ("      El tram " ++ tram.ID ++
          " de la línia talla el tram " ++ t2.ID ++ " de la mateixa línia.")))
    []
  e1 ++ e2 ++
    (if invalid_features.isEmpty && e2.isEmpty then
      [infoRec "      Els trams de la linia no s'intersecten o toquen a sí mateixos."]
    else [])

/-- `gpd.sjoin(..., op='contains')`: one row per pair of a submitted segment
and a reference line it contains. -/
def sjoin_contains (trams : List Tram) (mem : List MemTram)
    (contains_pred : TramGeom → TramGeom → Bool) : List (Tram × MemTram) :=
  trams.foldl
    (fun acc t =>
      acc ++ (mem.filter (fun m => contains_pred t.geometry m.geometry)).map
        (fun m => (t, m)))
    []

/-- The error message of `check_line_intersects_db` for one segment. -/
def intersect_err_msg (tid : String) : String :=
  "      El tram " ++ tid ++ " de la línia talla algun tram de la base de dades."

/-- The error message of `check_line_overlaps_db` for one segment. -/
def overlap_err_msg (tid : String) : String :=
  "      El tram " ++ tid ++ " de la línia es sobreposa a algun tram de la base de dades."

/-- `check_line_intersects_db`: errors from the `contains` spatial join. -/
def check_line_intersects_db (trams : List Tram) (mem : List MemTram)
    (contains_pred : TramGeom → TramGeom → Bool) : List LogRec :=
  let features_intersects_db := sjoin_contains trams mem contains_pred
  if !features_intersects_db.isEmpty then
    features_intersects_db.map (fun p => errorRec (intersect_err_msg p.1.ID))
  else
    [infoRec "      Els trams de la linia no intersecten cap tram de la base de dades."]

/-- `check_line_overlaps_db`: errors from the same `contains` spatial
join, with the overlap wording. -/
def check_line_overlaps_db (trams : List Tram) (mem : List MemTram)
    (contains_pred : TramGeom → TramGeom → Bool) : List LogRec :=
  let features_overlaps_db := sjoin_contains trams mem contains_pred
  if !features_overlaps_db.isEmpty then
    features_overlaps_db.map (fun p => errorRec (overlap_err_msg p.1.ID))
  else
    [infoRec "      Els trams de la linia no es sobreposen a cap tram de la base de dades."]

/-- `get_round_point_coordinates`: dict `ID_PUNT ↦ (round(x,1), round(y,1))`
over the point layer. -/
def get_round_point_coordinates (punts : List Punt) :
    List (String × (ℚ × ℚ)) :=
  let points_id := punts.map (fun p => p.ID_PUNT)
  let points_coord_list := punts.map (fun p => (round1 p.x, round1 p.y))
  (points_id.zip points_coord_list).foldl
    (fun d kv => dictInsert d kv.1 kv.2) []

/-- `get_round_line_coordinates`: all vertex coordinates of all segments,
rounded to one decimal; `.coords` of a multi-part geometry raises. -/
def get_round_line_coordinates (trams : List Tram) :
    Option (List (ℚ × ℚ)) :=
  (trams.mapM (fun (t : Tram) => t.geometry.coordsOpt)).map
    (fun css => css.flatten.map (fun v => (round1 v.1, round1 v.2)))

/-- Python `a or b` on two tuples: a non-empty tuple is truthy, so the
expression evaluates to its first operand. -/
def pyOrPair (a b : ℚ × ℚ) : ℚ × ℚ :=
  let _ := b
  a

/-- The per-segment step of `check_endpoint_covered_point`: the membership
test is applied to `(first_endpoint or last_endpoint)`, which evaluates to
`first_endpoint` alone; empty or multi-part coordinates raise. -/
def endpoint_entry (points_coords_values : List (ℚ × ℚ)) (t : Tram) :
    Option (List LogRec) :=
  match t.geometry.coordsOpt with
  | none => none
  | some cs =>
    match cs.head?, cs.getLast? with
    | some f, some l =>
      let first_endpoint := (round1 f.1, round1 f.2)
      let last_endpoint := (round1 l.1, round1 l.2)
      if !points_coords_values.contains (pyOrPair first_endpoint last_endpoint) then
        some [errorRec ("      Algun dels punts finals del tram " ++ t.ID ++
          " no coincideixen amb una fita de la capa Punt.")]
      else some []
    | _, _ => none

/-- `check_endpoint_covered_point`: per-segment endpoint coverage against
the rounded marker coordinates. -/
def check_endpoint_covered_point (trams : List Tram)
    (points_coords_dict : List (String × (ℚ × ℚ))) : Option (List LogRec) :=
  match trams.mapM (endpoint_entry (dictValues points_coords_dict)) with
  | none => none
  | some ls =>
    let errs := ls.flatten
    some (errs ++
      (if errs.isEmpty then
        [infoRec "      Tots els punts finals dels trams de la linia coincideixen amb una fita de la capa Punt."]
      else []))

/-- `check_auxiliary_point`: for each point of the coordinates dict that is
not on the line and is PPF, look up its `PUNT_FIT` record; the lookup
`.values[0]` raises on an empty selection. -/
def check_auxiliary_point (line_coords_list : List (ℚ × ℚ))
    (ppf_list : List String) (punt_fit : List PuntFit) :
    List (String × (ℚ × ℚ)) → Option (List LogRec)
  | [] => some []
  | (point_id, point_coords) :: rest =>
    if !line_coords_list.contains point_coords then
      if ppf_list.contains point_id then
        match (punt_fit.filter (fun r => r.ID_PUNT == point_id)).head? with
        | none => none
        | some point =>
          let aux := point.AUX
          let n_fita := point.ID_FITA
          let pid := splitLast point_id '-'
          let entry :=
            if aux == some "1" then
              infoRec ("      La fita F " ++ n_fita ++ " | ID PUNT " ++ pid ++
                " no està a sobre de la linia però és auxiliar.")
            else
              errorRec ("      La fita F " ++ n_fita ++ " | ID PUNT " ++ pid ++
                " no està a sobre de la linia i NO és auxiliar.")
          (check_auxiliary_point line_coords_list ppf_list punt_fit rest).map
            (fun es => entry :: es)
      else check_auxiliary_point line_coords_list ppf_list punt_fit rest
    else check_auxiliary_point line_coords_list ppf_list punt_fit rest

/-- `check_topology`: the five topology checks, in order. -/
def check_topology (trams : List Tram) (mem : List MemTram)
    (crosses contains_pred : TramGeom → TramGeom → Bool)
    (points_coords_dict : List (String × (ℚ × ℚ)))
    (line_coords_list : List (ℚ × ℚ)) (ppf_list : List String)
    (punt_fit : List PuntFit) : Option (List LogRec) :=
  match check_endpoint_covered_point trams points_coords_dict with
  | none => none
  | some l4 =>
    match check_auxiliary_point line_coords_list ppf_list punt_fit points_coords_dict with
    | none => none
    | some l5 =>
      some ([infoRec "Iniciant controls topològics..."] ++
        check_line_crosses_itself trams crosses ++
        check_line_intersects_db trams mem contains_pred ++
        check_line_overlaps_db trams mem contains_pred ++ l4 ++ l5)

/-- `write_first_report`: the first log entry of a run. -/
def write_first_report (line_id_txt current_date : String) : LogRec :=
  infoRec ("ID Linia : " ++ line_id_txt ++ " |  Data i hora CQ : " ++
    current_date)

/-- The gating message rendered when the field structure of `Lin_TramPpta`
is not correct. -/
def lin_tram_gate_msg : String :=
  "L'estructura de camps de Lin_TramPpta.shp no és correcte i no es pot continuar el procés, donat que hi ha algun camp que falta o sobra a la capa. Si us plau, revisa-la."

/-- The checking part of `CheckQualityLine.get` (lines 114-156): the
workspace checks already succeeded and the layers are loaded.  `init_log`
holds the log records written before this point.  The result is `none`
when some check raises, the gated error response when the schema check
fails, and otherwise the `OK` response carrying the re-parsed log. -/
def runChecks (data : LineData)
    (crosses contains_pred : TramGeom → TramGeom → Bool) (line_id : Int)
    (line_id_str : String) (init_log : List LogRec) : Option Response :=
  let ppf_list := get_ppf_list data.p_proposta
  let founded_points_dict := get_founded_points_dict data.punt_fit ppf_list
  let points_coords_dict := get_round_point_coordinates data.punt
  match get_round_line_coordinates data.lin_tram_ppta with
  | none => none
  | some line_coords_list =>
    let log1 := check_line_id_exists line_id data.tram_line_mem data.fita_mem
    let layer_check := check_lin_tram_ppta_layer data.lin_tram_fields line_id data.lin_tram_ppta
    if !layer_check.1 then
      some { result := "error", message := lin_tram_gate_msg, reports := none }
    else
      match info_vertexs_line data.lin_tram_ppta with
      | none => none
      | some log3 =>
        match check_3termes data.punt ppf_list with
        | none => none
        | some log7 =>
          match check_relation_points_tables data.punt data.p_proposta data.punt_fit with
          | none => none
          | some log8 =>
            match check_topology data.lin_tram_ppta data.tram_line_mem crosses
                contains_pred points_coords_dict line_coords_list ppf_list
                data.punt_fit with
            | none => none
            | some log9 =>
              let log2 := check_layers_geometry data.lin_tram_ppta data.punt
              let log4 := check_points_decimals data.punt ppf_list
              let log5 := info_p_proposta data.p_proposta
              let log6 :=
                if truthyDict founded_points_dict then
                  check_found_points data.punt ppf_list
                    (founded_points_dict.getD []) data.photo_folder
                else []
              let full_log := init_log ++ log1 ++ layer_check.2 ++ log2 ++
                log3 ++ log4 ++ log5 ++ log6 ++ log7 ++ log8 ++ log9
              match add_response_data full_log with
              | none => none
              | some reports =>
                some { result := "OK",
                       message := "Linia " ++ line_id_str ++ " checkejada",
                       reports := some reports }

end CQline

namespace CQline

attribute [local semireducible] Rat.add Rat.mul Rat.inv Rat.sub

theorem str_append_cancel_left {a b c : String} (h : a ++ b = a ++ c) :
    b = c := by
  apply String.ext
  have hd : a.data ++ b.data = a.data ++ c.data := by
    simpa using congrArg String.data h
  exact List.append_cancel_left hd

theorem str_append_cancel_right {a b c : String} (h : a ++ c = b ++ c) :
    a = b := by
  apply String.ext
  have hd : a.data ++ c.data = b.data ++ c.data := by
    simpa using congrArg String.data h
  exact List.append_cancel_right hd

theorem dictInsert_ne_nil {α : Type} (d : List (String × α)) (k : String)
    (v : α) : dictInsert d k v ≠ [] := by
  unfold dictInsert
  split
  · intro h
    rename_i hany
    rw [List.map_eq_nil_iff] at h
    subst h
    simp at hany
  · simp

theorem founded_fold_eq_nil_iff (ppf_list : List String) (l : List PuntFit) :
    ∀ acc : List (String × String),
      (l.foldl
        (fun d r =>
          if ppf_list.contains r.ID_PUNT then dictInsert d r.ID_FITA r.ID_PUNT
          else d)
        acc) = [] ↔
      acc = [] ∧ ∀ r ∈ l, ¬ ppf_list.contains r.ID_PUNT := by
  induction l with
  | nil => simp
  | cons r rest ih =>
    intro acc
    simp only [List.foldl_cons]
    by_cases hc : ppf_list.contains r.ID_PUNT
    · rw [if_pos hc, ih]
      constructor
      · rintro ⟨h1, -⟩
        exact absurd h1 (dictInsert_ne_nil acc r.ID_FITA r.ID_PUNT)
      · rintro ⟨-, hall⟩
        exact absurd hc (hall r (by simp))
    · rw [if_neg hc, ih]
      constructor
      · rintro ⟨h1, hall⟩
        refine ⟨h1, ?_⟩
        intro q hq
        rcases List.mem_cons.mp hq with h | h
        · subst h; exact hc
        · exact hall q h
      · rintro ⟨h1, hall⟩
        exact ⟨h1, fun q hq => hall q (List.mem_cons_of_mem r hq)⟩

/-- Proposal record with a null `ORDPF`. -/
def r_ordpf_null : PProposta := ⟨"A-1", some 1, some 1, none⟩

/-- Final proposed record with `ORDPF = 0` marked as a real marker. -/
def r_misclassified : PProposta := ⟨"B-2", some 1, some 1, some 0⟩

/-- Final proposed auxiliary record with `ORDPF = 0` and `ESFITA = 0`. -/
def r_valid_aux : PProposta := ⟨"C-3", some 1, some 0, some 0⟩

/-- C6: for every proposal record, a null `ORDPF` yields the corresponding
error entry of `check_ordpf`; a record with `PFF = 1`, `ORDPF = 0` and
`ESFITA ≠ 0` yields the misclassified-auxiliary-point error entry of
`check_real_points`; and a record with `PFF = 1`, `ORDPF = 0` and
`ESFITA = 0` yields no entry in either check. -/
theorem C6_p_proposta_record_rules (p_proposta : List PProposta)
    (r : PProposta) (hmem : r ∈ p_proposta) :
    (r.ORDPF = none → errorRec (ordpf_err_msg r) ∈ (check_ordpf p_proposta).2) ∧
    (r.PFF = some 1 → r.ORDPF = some 0 → r.ESFITA ≠ some 0 →
      errorRec (real_points_err_msg r) ∈ (check_real_points p_proposta).2) ∧
    (r.PFF = some 1 → r.ORDPF = some 0 → r.ESFITA = some 0 →
      (check_ordpf [r]).2 = [] ∧ (check_real_points [r]).2 = []) := by
  refine ⟨?_, ?_, ?_⟩
  · intro h1
    have hr : r ∈ p_proposta.filter (fun q => q.ORDPF.isNone) :=
      List.mem_filter.mpr ⟨hmem, by simp [h1]⟩
    simp only [check_ordpf]
    split
    · exact List.mem_map.mpr ⟨r, hr, rfl⟩
    · rename_i hcond
      simp only [Bool.not_eq_true', Bool.not_eq_false, List.isEmpty_iff] at hcond
      rw [hcond] at hr
      simp at hr
  · intro h1 h2 h3
    have hr : r ∈ p_proposta.filter
        (fun q => q.PFF == some 1 && q.ORDPF == some 0 && q.ESFITA != some 0) :=
      List.mem_filter.mpr ⟨hmem, by simp [h1, h2, h3]⟩
    simp only [check_real_points]
    split
    · exact List.mem_map.mpr ⟨r, hr, rfl⟩
    · rename_i hcond
      simp only [Bool.not_eq_true', Bool.not_eq_false, List.isEmpty_iff] at hcond
      rw [hcond] at hr
      simp at hr
  · intro h1 h2 h3
    constructor
    · simp [check_ordpf, h2]
    · simp [check_real_points, h1, h2, h3]

/-- C6 witness: the three record shapes, each on a one-record table. -/
theorem C6_p_proposta_record_rules_witness :
    errorRec (ordpf_err_msg r_ordpf_null) ∈ (check_ordpf [r_ordpf_null]).2 ∧
    errorRec (real_points_err_msg r_misclassified) ∈
      (check_real_points [r_misclassified]).2 ∧
    ((check_ordpf [r_valid_aux]).2 = [] ∧ (check_real_points [r_valid_aux]).2 = []) :=
  ⟨(C6_p_proposta_record_rules [r_ordpf_null] r_ordpf_null (by decide)).1 rfl,
   (C6_p_proposta_record_rules [r_misclassified] r_misclassified (by decide)).2.1
     rfl rfl (by decide),
   (C6_p_proposta_record_rules [r_valid_aux] r_valid_aux (by decide)).2.2
     rfl rfl rfl⟩

end CQline

namespace CQline

attribute [local semireducible] Rat.add Rat.mul Rat.inv Rat.sub

theorem contains_iff_mem {l : List String} {a : String} :
    l.contains a = true ↔ a ∈ l :=
  List.elem_iff

/-- C3: the report round trip truncates any message containing the `'-'`
separator.  The first report of every run interpolates the timestamp
`%Y%m%d-%H%M`, whose `'-'` makes `add_response_data` cut the message at the
separator: the resulting report item does not carry the complete message
text. -/
theorem C3_report_roundtrip_truncates :
    add_response_data [write_first_report "0001" "20210315-1024"] =
      some [⟨"INFO ", " ID Linia : 0001 |  Data i hora CQ : 20210315"⟩] ∧
    (write_first_report "0001" "20210315-1024").msg =
      "ID Linia : 0001 |  Data i hora CQ : 20210315-1024" ∧
    (⟨"INFO ", " ID Linia : 0001 |  Data i hora CQ : 20210315"⟩ : ReportItem).report_message ≠
      " " ++ (write_first_report "0001" "20210315-1024").msg := by
  decide

/-- C4 data: one segment whose first endpoint coincides with the only
marker point and whose last endpoint coincides with nothing. -/
def c4_tram : Tram :=
  ⟨"T1", 500, "F1", "F2", .lineString [(0, 0), (5, 5)], false, true⟩

/-- C4 data: rounded marker coordinates, covering only `(0, 0)`. -/
def c4_points_coords : List (String × (ℚ × ℚ)) := [("P-1", (0, 0))]

/-- C4: the last endpoint of the segment matches no marker point, yet
`check_endpoint_covered_point` emits no error for the segment — the source
tests `(first_endpoint or last_endpoint)`, which is just `first_endpoint`,
so the second endpoint is never checked. -/
theorem C4_last_endpoint_not_checked :
    (dictValues c4_points_coords).contains (round1 5, round1 5) = false ∧
    check_endpoint_covered_point [c4_tram] c4_points_coords =
      some [infoRec "      Tots els punts finals dels trams de la linia coincideixen amb una fita de la capa Punt."] := by
  decide

/-- C8 data: the point layer and the proposal table agree on `A-1`; the
found-marker table references the missing point `B-2`. -/
def c8_punt : List Punt := [⟨"A-1", "F-1", none, none, 0, 0, 0, false, true⟩]

/-- C8 data: one proposal record for the existing point `A-1`. -/
def c8_p_proposta : List PProposta := [⟨"A-1", some 1, some 1, some 1⟩]

/-- C8 data: one found-marker record for the missing point `B-2`. -/
def c8_punt_fit : List PuntFit := [⟨"B-2", "2", none, none⟩]

/-- C8: the referential error emitted for the missing `PUNT_FIT` reference
`B-2` names `1` — the suffix of the last `P_Proposta` identifier iterated
in the first loop — instead of the missing identifier's suffix `2`: the
second loop reassigns its message variable from the stale first-loop
variable `point_id`. -/
theorem C8_fit_error_names_stale_identifier :
    check_relation_points_tables c8_punt c8_p_proposta c8_punt_fit =
      some [infoRec "Comprovant correspondència entre les taules i la capa Punt...",
            infoRec "      Correspondència OK entre els punts de P_PROPOSTA i Punt.",
            errorRec "El registre amb ID PUNT : 1 de la taula PUNT_FIT no està a la capa Punt."] ∧
    splitLast "B-2" '-' = "2" ∧
    (errorRec "El registre amb ID PUNT : 1 de la taula PUNT_FIT no està a la capa Punt." ≠
      errorRec "El registre amb ID PUNT : 2 de la taula PUNT_FIT no està a la capa Punt.") := by
  decide

/-- C9 counterexample data: one found record whose point is not final
proposed. -/
def c9_punt_fit : List PuntFit := [⟨"X-9", "9", some "1", none⟩]

/-- C9 counterexample data: the only final proposed point is `A-1`. -/
def c9_p_proposta : List PProposta := [⟨"A-1", some 1, some 1, some 1⟩]

/-- C9 counterexample: a marker is recorded as found in the found-marker
table, yet the guard of the found-marker checks
(`if self.founded_points_dict:`) is falsy, because the found point is not
in the PPF list and the dict built by `get_founded_points_dict` is empty. -/
theorem C9_found_guard_counterexample :
    (c9_punt_fit.any (fun r => r.TROBADA == some "1")) = true ∧
    truthyDict (get_founded_points_dict c9_punt_fit (get_ppf_list c9_p_proposta)) = false := by
  decide

/-- C9 amended: the found-marker checks run iff some record of `PUNT_FIT`
is recorded as found and its point is in the PPF list. -/
theorem C9_found_guard_iff (punt_fit : List PuntFit) (ppf_list : List String) :
    truthyDict (get_founded_points_dict punt_fit ppf_list) = true ↔
      ∃ r ∈ punt_fit, r.TROBADA = some "1" ∧ r.ID_PUNT ∈ ppf_list := by
  have hmem : ∀ r : PuntFit,
      r ∈ punt_fit.filter (fun q => q.TROBADA == some "1") ↔
        r ∈ punt_fit ∧ r.TROBADA = some "1" := by
    intro r
    rw [List.mem_filter]
    simp
  simp only [get_founded_points_dict]
  rcases hE : punt_fit.filter (fun q => q.TROBADA == some "1") with _ | ⟨a, l⟩
  · rw [hE]
    simp only [List.isEmpty_nil, Bool.not_true]
    rw [if_neg (by simp)]
    constructor
    · intro h
      simp [truthyDict] at h
    · rintro ⟨r, hr, h1, h2⟩
      have hrmem : r ∈ punt_fit.filter (fun q => q.TROBADA == some "1") :=
        (hmem r).mpr ⟨hr, h1⟩
      rw [hE] at hrmem
      simp at hrmem
  · rw [hE]
    simp only [List.isEmpty_cons, Bool.not_false]
    rw [if_pos trivial]
    have hne := founded_fold_eq_nil_iff ppf_list (a :: l) []
    constructor
    · intro h
      have hfold : ((a :: l).foldl
          (fun d r =>
            if ppf_list.contains r.ID_PUNT then dictInsert d r.ID_FITA r.ID_PUNT
            else d) []) ≠ [] := by
        intro h0
        rw [h0] at h
        simp [truthyDict] at h
      have hnall : ¬ ∀ r ∈ a :: l, ¬ ppf_list.contains r.ID_PUNT := by
        intro hall
        exact hfold (hne.mpr ⟨rfl, hall⟩)
      push_neg at hnall
      obtain ⟨r, hr, hc⟩ := hnall
      have hrf : r ∈ punt_fit ∧ r.TROBADA = some "1" := (hmem r).mp (hE ▸ hr)
      exact ⟨r, hrf.1, hrf.2, contains_iff_mem.mp (by simpa using hc)⟩
    · rintro ⟨r, hr, h1, h2⟩
      have hrf : r ∈ a :: l := hE ▸ (hmem r).mpr ⟨hr, h1⟩
      have hfold : ((a :: l).foldl
          (fun d r =>
            if ppf_list.contains r.ID_PUNT then dictInsert d r.ID_FITA r.ID_PUNT
            else d) []) ≠ [] := by
        intro h0
        exact (hne.mp h0).2 r hrf (contains_iff_mem.mpr h2)
      cases hF : ((a :: l).foldl
          (fun d r =>
            if ppf_list.contains r.ID_PUNT then dictInsert d r.ID_FITA r.ID_PUNT
            else d) []) with
      | nil => exact absurd hF hfold
      | cons b m => simp [truthyDict]

end CQline

namespace CQline

attribute [local semireducible] Rat.add Rat.mul Rat.inv Rat.sub

/-- C7: a final proposed point is flagged by the decimal-precision check iff
one of its coordinates is farther than `0.01` from its value rounded to one
decimal; each violating point is reported individually, and when every
final proposed point satisfies both tolerances the check emits no
error-level entry. -/
theorem C7_decimals_check_iff (punts : List Punt) (ppf_list : List String)
    (f : Punt) (hmem : f ∈ punts) (hppf : f.ID_PUNT ∈ ppf_list) :
    ((|f.x - round1 f.x| > 1/100 ∨ |f.y - round1 f.y| > 1/100) →
      errorRec (decim_err_msg f) ∈ check_points_decimals punts ppf_list) ∧
    ((∃ e ∈ check_points_decimals [f] ppf_list, e.level = "ERROR") ↔
      (|f.x - round1 f.x| > 1/100 ∨ |f.y - round1 f.y| > 1/100)) ∧
    ((∀ g ∈ punts, g.ID_PUNT ∈ ppf_list →
        |g.x - round1 g.x| ≤ 1/100 ∧ |g.y - round1 g.y| ≤ 1/100) →
      ∀ e ∈ check_points_decimals punts ppf_list, e.level ≠ "ERROR") := by
  refine ⟨?_, ?_, ?_⟩
  · intro hbad
    have hcond : (ppf_list.contains f.ID_PUNT && decim_bad f) = true := by
      simp only [Bool.and_eq_true, decim_bad, Bool.or_eq_true, decide_eq_true_eq]
      exact ⟨contains_iff_mem.mpr hppf, hbad⟩
    have hf : f ∈ punts.filter (fun g => ppf_list.contains g.ID_PUNT && decim_bad g) :=
      List.mem_filter.mpr ⟨hmem, hcond⟩
    simp only [check_points_decimals]
    exact List.mem_append_left _ (List.mem_map.mpr ⟨f, hf, rfl⟩)
  · by_cases hbad : |f.x - round1 f.x| > 1/100 ∨ |f.y - round1 f.y| > 1/100
    · have hcond : (ppf_list.contains f.ID_PUNT && decim_bad f) = true := by
        simp only [Bool.and_eq_true, decim_bad, Bool.or_eq_true, decide_eq_true_eq]
        exact ⟨contains_iff_mem.mpr hppf, hbad⟩
      constructor
      · exact fun _ => hbad
      · intro _
        have hf : f ∈ [f].filter (fun g => ppf_list.contains g.ID_PUNT && decim_bad g) :=
          List.mem_filter.mpr ⟨by simp, hcond⟩
        refine ⟨errorRec (decim_err_msg f), ?_, rfl⟩
        simp only [check_points_decimals]
        exact List.mem_append_left _ (List.mem_map.mpr ⟨f, hf, rfl⟩)
    · have hdb : decim_bad f = false := by
        simp only [decim_bad, Bool.or_eq_false_iff, decide_eq_false_iff_not, not_lt]
        push_neg at hbad
        exact hbad
      constructor
      · rintro ⟨e, he, hlvl⟩
        simp [check_points_decimals, hdb] at he
        rw [he] at hlvl
        simp [infoRec] at hlvl
      · intro h
        exact absurd h hbad
  · intro hall
    have hfilter : punts.filter (fun g => ppf_list.contains g.ID_PUNT && decim_bad g) = [] := by
      rw [List.filter_eq_nil_iff]
      intro g hg hcond
      simp only [Bool.and_eq_true, decim_bad, Bool.or_eq_true, decide_eq_true_eq] at hcond
      have hgood := hall g hg (contains_iff_mem.mp hcond.1)
      rcases hcond.2 with h | h
      · exact absurd h (not_lt.mpr hgood.1)
      · exact absurd h (not_lt.mpr hgood.2)
    have hout : check_points_decimals punts ppf_list =
        [infoRec "Les fites estan correctament decimetritzades"] := by
      simp only [check_points_decimals, hfilter, List.map_nil, List.nil_append,
        List.isEmpty_nil, eq_self_iff_true, if_true]
    intro e he
    rw [hout, List.mem_singleton] at he
    rw [he]
    decide

/-- C7 witness data: a final proposed point at x = 123.456, off the rounded
value 123.5 by 0.044. -/
def c7_bad_punt : Punt :=
  ⟨"A-1", "F-1", none, none, 123456/1000, 0, 0, false, true⟩

/-- C7 witness: the off-tolerance point is reported. -/
theorem C7_decimals_check_iff_witness :
    errorRec (decim_err_msg c7_bad_punt) ∈ check_points_decimals [c7_bad_punt] ["A-1"] :=
  (C7_decimals_check_iff [c7_bad_punt] ["A-1"] c7_bad_punt (by decide) (by decide)).1
    (Or.inl (by decide))

end CQline

namespace CQline

theorem errorRec_ne_infoRec (a b : String) : errorRec a ≠ infoRec b := by
  intro h
  have hl : "ERROR" = "INFO" := congrArg LogRec.level h
  exact absurd hl (by decide)

theorem intersect_err_msg_inj {a b : String}
    (h : intersect_err_msg a = intersect_err_msg b) : a = b := by
  unfold intersect_err_msg at h
  exact str_append_cancel_left (str_append_cancel_right h)

theorem overlap_err_msg_inj {a b : String}
    (h : overlap_err_msg a = overlap_err_msg b) : a = b := by
  unfold overlap_err_msg at h
  exact str_append_cancel_left (str_append_cancel_right h)

/-- C5: the intersection check and the overlap check evaluate the same
`contains` spatial join, so they flag exactly the same segments: the two
entry lists have the same length, and a segment identifier is named by an
intersection error iff it is named by an overlap error. -/
theorem C5_intersect_overlap_same_flags (trams : List Tram)
    (mem : List MemTram) (contains_pred : TramGeom → TramGeom → Bool) :
    (check_line_intersects_db trams mem contains_pred).length =
      (check_line_overlaps_db trams mem contains_pred).length ∧
    ∀ tid : String,
      (errorRec (intersect_err_msg tid) ∈
          check_line_intersects_db trams mem contains_pred ↔
        errorRec (overlap_err_msg tid) ∈
          check_line_overlaps_db trams mem contains_pred) := by
  simp only [check_line_intersects_db, check_line_overlaps_db]
  rcases hJ : sjoin_contains trams mem contains_pred with _ | ⟨p, ps⟩
  · simp only [List.isEmpty_nil, Bool.not_true]
    rw [if_neg (by simp), if_neg (by simp)]
    refine ⟨rfl, ?_⟩
    intro tid
    constructor
    · intro h
      rw [List.mem_singleton] at h
      exact absurd h (errorRec_ne_infoRec _ _)
    · intro h
      rw [List.mem_singleton] at h
      exact absurd h (errorRec_ne_infoRec _ _)
  · simp only [List.isEmpty_cons, Bool.not_false, eq_self_iff_true, if_true]
    refine ⟨by simp, ?_⟩
    intro tid
    constructor
    · intro h
      obtain ⟨q, hq, heq⟩ := List.mem_map.mp h
      have hmsg : intersect_err_msg q.1.ID = intersect_err_msg tid := by
        have := congrArg LogRec.msg heq
        simpa [errorRec] using this
      have hid : q.1.ID = tid := intersect_err_msg_inj hmsg
      exact List.mem_map.mpr ⟨q, hq, by rw [hid]⟩
    · intro h
      obtain ⟨q, hq, heq⟩ := List.mem_map.mp h
      have hmsg : overlap_err_msg q.1.ID = overlap_err_msg tid := by
        have := congrArg LogRec.msg heq
        simpa [errorRec] using this
      have hid : q.1.ID = tid := overlap_err_msg_inj hmsg
      exact List.mem_map.mpr ⟨q, hq, by rw [hid]⟩

theorem contains_iff_mem_pair {l : List (ℚ × ℚ)} {a : ℚ × ℚ} :
    l.contains a = true ↔ a ∈ l :=
  List.elem_iff

/-- C10: the auxiliary-point classification completes (no out-of-bounds
lookup of `AUX`/`ID_FITA`) iff every point of the coordinates dict whose
rounded coordinates are off the line and which is final proposed has at
least one record in `PUNT_FIT`; an input violating this makes the lookup
index into an empty selection, and the run produces no entry list at
all. -/
theorem C10_auxiliary_lookup_totality
    (points_coords_dict : List (String × (ℚ × ℚ)))
    (line_coords_list : List (ℚ × ℚ)) (ppf_list : List String)
    (punt_fit : List PuntFit) :
    (check_auxiliary_point line_coords_list ppf_list punt_fit
        points_coords_dict).isSome = true ↔
      ∀ pid coords, (pid, coords) ∈ points_coords_dict →
        coords ∉ line_coords_list → pid ∈ ppf_list →
          ∃ r ∈ punt_fit, r.ID_PUNT = pid := by
  induction points_coords_dict with
  | nil => simp [check_auxiliary_point]
  | cons kv rest ih =>
    obtain ⟨pid0, c0⟩ := kv
    simp only [check_auxiliary_point]
    rcases hb : line_coords_list.contains c0 with _ | _
    · rw [if_pos (by decide)]
      have hnc0 : c0 ∉ line_coords_list := by
        intro hmemc
        rw [contains_iff_mem_pair.mpr hmemc] at hb
        cases hb
      rcases hb2 : ppf_list.contains pid0 with _ | _
      · rw [if_neg (by decide)]
        rw [ih]
        have hnp : pid0 ∉ ppf_list := by
          intro hp
          rw [contains_iff_mem.mpr hp] at hb2
          cases hb2
        constructor
        · intro hrest pid coords hm hnc hppf
          rcases List.mem_cons.mp hm with heq | hm2
          · injection heq with hp hc
            subst hp
            exact absurd hppf hnp
          · exact hrest pid coords hm2 hnc hppf
        · intro hall pid coords hm hnc hppf
          exact hall pid coords (List.mem_cons_of_mem _ hm) hnc hppf
      · rw [if_pos rfl]
        rcases hH : (punt_fit.filter (fun r => r.ID_PUNT == pid0)).head? with _ | point
        · simp only [hH, Option.isSome_none, Bool.false_eq_true, false_iff]
          intro hall
          obtain ⟨r, hr, hid⟩ :=
            hall pid0 c0 (by simp) hnc0 (contains_iff_mem.mp hb2)
          have hrf : r ∈ punt_fit.filter (fun q => q.ID_PUNT == pid0) :=
            List.mem_filter.mpr ⟨hr, by simp [hid]⟩
          rw [List.head?_eq_none_iff.mp hH] at hrf
          simp at hrf
        · simp only [hH, Option.isSome_map']
          rw [ih]
          have hpt : point ∈ punt_fit.filter (fun q => q.ID_PUNT == pid0) := by
            obtain ⟨ys, hys⟩ := List.head?_eq_some_iff.mp hH
            rw [hys]
            simp
          have hpt2 := List.mem_filter.mp hpt
          constructor
          · intro hrest pid coords hm hnc hppf
            rcases List.mem_cons.mp hm with heq | hm2
            · injection heq with hp hc
              subst hp
              exact ⟨point, hpt2.1, by simpa using hpt2.2⟩
            · exact hrest pid coords hm2 hnc hppf
          · intro hall pid coords hm hnc hppf
            exact hall pid coords (List.mem_cons_of_mem _ hm) hnc hppf
    · rw [if_neg (by decide)]
      rw [ih]
      have hc0 : c0 ∈ line_coords_list := contains_iff_mem_pair.mp hb
      constructor
      · intro hrest pid coords hm hnc hppf
        rcases List.mem_cons.mp hm with heq | hm2
        · injection heq with hp hc
          subst hc
          exact absurd hc0 hnc
        · exact hrest pid coords hm2 hnc hppf
      · intro hall pid coords hm hnc hppf
        exact hall pid coords (List.mem_cons_of_mem _ hm) hnc hppf

end CQline

namespace CQline

attribute [local semireducible] Rat.add Rat.mul Rat.inv Rat.sub

theorem check_fields_fst_iff (fields : List String) :
    (check_fields_lin_tram_ppta fields).1 = true ↔
      (fields.filter (fun f => true_fields.contains f)).length =
        true_fields.length := by
  simp only [check_fields_lin_tram_ppta]
  split
  · rename_i h
    exact iff_of_true rfl h
  · rename_i h
    exact iff_of_false (by simp) h

theorem runChecks_gate (data : LineData)
    (crosses contains_pred : TramGeom → TramGeom → Bool) (line_id : Int)
    (line_id_str : String) (init_log : List LogRec)
    (hfail : (check_fields_lin_tram_ppta data.lin_tram_fields).1 = false)
    (res : Response)
    (h : runChecks data crosses contains_pred line_id line_id_str init_log = some res) :
    res = ⟨"error", lin_tram_gate_msg, none⟩ := by
  have hlayer : (check_lin_tram_ppta_layer data.lin_tram_fields line_id
      data.lin_tram_ppta).1 = false := by
    simp [check_lin_tram_ppta_layer, hfail]
  simp only [runChecks] at h
  rw [hlayer] at h
  simp only [Bool.not_false, eq_self_iff_true, if_true] at h
  split at h
  · simp at h
  · cases h
    rfl

theorem runChecks_ok (data : LineData)
    (crosses contains_pred : TramGeom → TramGeom → Bool) (line_id : Int)
    (line_id_str : String) (init_log : List LogRec)
    (hpass : (check_fields_lin_tram_ppta data.lin_tram_fields).1 = true)
    (res : Response)
    (h : runChecks data crosses contains_pred line_id line_id_str init_log = some res) :
    res.result = "OK" ∧
    res.message = "Linia " ++ line_id_str ++ " checkejada" ∧
    res.reports.isSome = true := by
  have hlayer : (check_lin_tram_ppta_layer data.lin_tram_fields line_id
      data.lin_tram_ppta).1 = true := by
    simp [check_lin_tram_ppta_layer, hpass]
  simp only [runChecks] at h
  rw [hlayer] at h
  simp only [Bool.not_true, Bool.false_eq_true, if_false] at h
  split at h
  · simp at h
  · split at h
    · simp at h
    · split at h
      · simp at h
      · split at h
        · simp at h
        · split at h
          · simp at h
          · split at h
            · simp at h
            · cases h
              exact ⟨rfl, rfl, rfl⟩

/-- C2: under distinct column names, the schema check of `Lin_TramPpta`
passes iff every required field is present (extra fields allowed), and on
failure the orchestrator returns the single gated error response, with no
report list and no further checks run. -/
theorem C2_schema_gate (fields : List String) (hnd : fields.Nodup)
    (data : LineData) (crosses contains_pred : TramGeom → TramGeom → Bool)
    (line_id : Int) (line_id_str : String) (init_log : List LogRec)
    (hfields : data.lin_tram_fields = fields) :
    ((check_fields_lin_tram_ppta fields).1 = true ↔
      ∀ f ∈ true_fields, f ∈ fields) ∧
    ((check_fields_lin_tram_ppta fields).1 = false →
      ∀ res,
        runChecks data crosses contains_pred line_id line_id_str init_log = some res →
          res = ⟨"error", lin_tram_gate_msg, none⟩) := by
  constructor
  · rw [check_fields_fst_iff]
    have hSsub : fields.filter (fun f => true_fields.contains f) ⊆ true_fields := by
      intro x hx
      exact contains_iff_mem.mp (List.mem_filter.mp hx).2
    have hSnd : (fields.filter (fun f => true_fields.contains f)).Nodup :=
      List.Nodup.filter _ hnd
    constructor
    · intro hlen f hf
      have hsp : List.Subperm (fields.filter (fun f => true_fields.contains f)) true_fields :=
        List.subperm_of_subset hSnd hSsub
      have hperm : List.Perm (fields.filter (fun f => true_fields.contains f)) true_fields :=
        hsp.perm_of_length_le (le_of_eq hlen.symm)
      have hfS : f ∈ fields.filter (fun f => true_fields.contains f) :=
        hperm.mem_iff.mpr hf
      exact (List.mem_filter.mp hfS).1
    · intro hall
      have hTFsub : true_fields ⊆ fields.filter (fun f => true_fields.contains f) := by
        intro f hf
        exact List.mem_filter.mpr ⟨hall f hf, contains_iff_mem.mpr hf⟩
      have h1 : List.Subperm true_fields (fields.filter (fun f => true_fields.contains f)) :=
        List.subperm_of_subset (by decide) hTFsub
      have h2 : List.Subperm (fields.filter (fun f => true_fields.contains f)) true_fields :=
        List.subperm_of_subset hSnd hSsub
      exact Nat.le_antisymm h2.length_le h1.length_le
  · intro hfail res h
    apply runChecks_gate data crosses contains_pred line_id line_id_str init_log ?_ res h
    rw [hfields]
    exact hfail

/-- A spatial predicate that never matches, for concrete runs. -/
def trivial_pred : TramGeom → TramGeom → Bool := fun _ _ => false

/-- C2 witness data: the required field `PF` is missing and an extra field
is present. -/
def c2_fields : List String :=
  ["ID_LINIA", "ID", "DATA", "COMENTARI", "P1", "P2", "P3", "P4",
   "ID_FITA1", "ID_FITA2", "geometry", "EXTRA"]

/-- C2 witness data: a layer store whose line layer misses the `PF`
column. -/
def c2_data : LineData where
  lin_tram_fields := c2_fields
  lin_tram_ppta := []
  punt := []
  p_proposta := []
  punt_fit := []
  tram_line_mem := []
  fita_mem := []
  photo_folder := []

set_option maxRecDepth 8000 in
/-- C2 witness: on a column list missing `PF`, the schema check fails, the
required-field characterisation refutes it, and the orchestrator returns
the gated error response. -/
theorem C2_schema_gate_witness :
    c2_fields.Nodup ∧
    (check_fields_lin_tram_ppta c2_fields).1 = false ∧
    ¬ (∀ f ∈ true_fields, f ∈ c2_fields) ∧
    runChecks c2_data trivial_pred trivial_pred 500 "500" [] =
      some ⟨"error", lin_tram_gate_msg, none⟩ := by
  refine ⟨by decide, by decide, ?_, by decide⟩
  intro hall
  have h := (C2_schema_gate c2_fields (by decide) c2_data trivial_pred
    trivial_pred 500 "500" [] rfl).1.mpr hall
  exact absurd h (by decide)

/-- C1: whenever the schema check passes and the run completes, the
pipeline result has status `OK` with the generic success message and a
report list, however many error-level entries the validators emitted; no
domain finding changes the status or aborts the run. -/
theorem C1_pipeline_ok_on_completion (data : LineData)
    (crosses contains_pred : TramGeom → TramGeom → Bool) (line_id : Int)
    (line_id_str : String) (init_log : List LogRec)
    (hpass : (check_fields_lin_tram_ppta data.lin_tram_fields).1 = true)
    (hdone : (runChecks data crosses contains_pred line_id line_id_str
      init_log).isSome = true) :
    ((runChecks data crosses contains_pred line_id line_id_str init_log).getD
        ⟨"", "", none⟩).result = "OK" ∧
    ((runChecks data crosses contains_pred line_id line_id_str init_log).getD
        ⟨"", "", none⟩).message = "Linia " ++ line_id_str ++ " checkejada" ∧
    ((runChecks data crosses contains_pred line_id line_id_str init_log).getD
        ⟨"", "", none⟩).reports.isSome = true := by
  rcases hR : runChecks data crosses contains_pred line_id line_id_str init_log with _ | res
  · rw [hR] at hdone
    simp at hdone
  · simpa using runChecks_ok data crosses contains_pred line_id line_id_str
      init_log hpass res hR

/-- C1 witness data: a complete, well-formed layer store in which the
found-marker photo check emits an error-level entry. -/
def c1_data : LineData where
  lin_tram_fields := true_fields
  lin_tram_ppta := [⟨"1", 500, "F1", "F2", .lineString [(0, 0), (1, 1)], false, true⟩]
  punt := [⟨"A-1", "F-1", none, some "C", 0, 0, 0, false, true⟩]
  p_proposta := [⟨"A-1", some 1, some 1, some 1⟩]
  punt_fit := [⟨"A-1", "1", some "1", some "0"⟩]
  tram_line_mem := []
  fita_mem := []
  photo_folder := []

set_option maxRecDepth 8000 in
/-- C1 witness: the run completes with status `OK` and the generic message
even though the parsed report list contains an error-level entry. -/
theorem C1_pipeline_ok_on_completion_witness :
    (check_fields_lin_tram_ppta c1_data.lin_tram_fields).1 = true ∧
    (runChecks c1_data trivial_pred trivial_pred 500 "500" []).isSome = true ∧
    ((runChecks c1_data trivial_pred trivial_pred 500 "500" []).getD
        ⟨"", "", none⟩).result = "OK" ∧
    (((runChecks c1_data trivial_pred trivial_pred 500 "500" []).getD
        ⟨"", "", none⟩).reports.getD []).any (fun i => i.level == "ERROR ") = true := by
  refine ⟨by decide, by decide, ?_, by decide⟩
  exact (C1_pipeline_ok_on_completion c1_data trivial_pred trivial_pred 500 "500" []
    (by decide) (by decide)).1

end CQline
